import Mathlib

/-!
Verification of `misconfig-configpropertycrossvalidator` (src/main.py).

The program loads a configuration file (JSON or YAML, dispatched on the
path's extension), loads a compatibility matrix (always JSON), and checks
every matrix property against the configuration, producing a list of
human-readable issue strings.

We shallowly embed the three functions `load_config`,
`load_compatibility_matrix` and `validate_config`.  Python dicts are
modelled as association lists (insertion-ordered, as Python dicts are);
JSON/YAML scalar values as the inductive `Value`; Python `==` on those
scalars as `pyEq`; the file system and the `json.load` / `yaml.safe_load`
parsers are abstract parameters (opening a path yields an `OpenResult`,
a parser is a function `String → Except String α`).  The distinct
`ConfigError` messages raised by main.py become constructors of an error
inductive, with `ConfigError.message` reproducing the exact f-strings.
-/

set_option autoImplicit false

namespace Misconfig

/-- A scalar value as produced by `json.load` / `yaml.safe_load`:
`null`/`None`, booleans, integers and strings.  (Floats and nested
structures are outside the claims under verification.) -/
inductive Value where
  | vNull : Value
  | vBool : Bool → Value
  | vInt : Int → Value
  | vStr : String → Value
deriving DecidableEq, Repr

/-- Python `==` on the scalars of `Value`.  In Python, `bool` is a subtype
of `int`, so `True == 1` and `False == 0`; numbers never equal strings
(`8 != "8"`), and `None` equals only `None`. -/
def pyEq : Value → Value → Bool
  | .vNull, .vNull => true
  | .vStr a, .vStr b => a == b
  | .vBool a, .vBool b => a == b
  | .vBool a, .vInt n => (if a then (1 : Int) else 0) == n
  | .vInt n, .vBool a => n == (if a then (1 : Int) else 0)
  | .vInt a, .vInt b => a == b
  | _, _ => false

/-- Python `repr` of a scalar (as used when a list of values is
interpolated into an f-string).  Strings are modelled without escape
processing, i.e. for strings not containing quote characters. -/
def pyRepr : Value → String
  | .vNull => "None"
  | .vBool b => if b then "True" else "False"
  | .vInt n => toString n
  | .vStr s => "'" ++ s ++ "'"

/-- Python `str` of a scalar, as interpolated by an f-string:
`str` of a string is the string itself, otherwise it agrees with `repr`. -/
def pyStr : Value → String
  | .vStr s => s
  | v => pyRepr v

/-- Python `str` of a list of scalars, as interpolated by an f-string:
brackets around the comma-separated `repr`s of the elements. -/
def pyStrList (xs : List Value) : String :=
  "[" ++ String.intercalate ", " (xs.map pyRepr) ++ "]"

/-- Dict lookup on an association list (Python `d[k]`, partial):
the value of the first entry whose key is `k`. -/
def dictGet {α : Type} (d : List (String × α)) (k : String) : Option α :=
  (d.find? (fun entry => entry.1 == k)).map (fun entry => entry.2)

/-- The configuration document: a mapping from property names to values. -/
abbrev ConfigData := List (String × Value)

/-- The compatibility matrix: a mapping from property names to the list of
allowed values. -/
abbrev Matrix := List (String × List Value)

/-- The issue string `f"Property '{p}' is missing from the configuration."`
(main.py line 88). -/
def missingMsg (property_name : String) : String :=
  "Property '" ++ property_name ++ "' is missing from the configuration."

/-- The issue string `f"Property '{p}' has incompatible value '{v}'.
Allowed values: {expected_values}"` (main.py line 85). -/
def incompatibleMsg (property_name : String) (actual_value : Value)
    (expected_values : List Value) : String :=
  "Property '" ++ property_name ++ "' has incompatible value '"
    ++ pyStr actual_value ++ "'. Allowed values: " ++ pyStrList expected_values

/-- `validate_config` (main.py lines 77-91): iterate the matrix's entries
in order; a property missing from the config or present with a value not
`in` its allowed list (Python membership, i.e. `==` against each element)
contributes one issue string. -/
def validate_config (config_data : ConfigData) : Matrix → List String
  | [] => []
  | (property_name, expected_values) :: rest =>
    match dictGet config_data property_name with
    | some actual_value =>
      if !(expected_values.any (fun expected => pyEq actual_value expected)) then
        incompatibleMsg property_name actual_value expected_values
          :: validate_config config_data rest
      else
        validate_config config_data rest
    | none =>
      missingMsg property_name :: validate_config config_data rest

/-- A matrix entry that produces an issue for `config_data`: its property
is absent from the config, or present with a value not in the allowed list. -/
def isBad (config_data : ConfigData) (entry : String × List Value) : Bool :=
  match dictGet config_data entry.1 with
  | none => true
  | some actual_value =>
    !(entry.2.any (fun expected => pyEq actual_value expected))

/-- Result of Python `open(path, 'r')` followed by reading: the file's
content, or one of the `OSError` subclasses main.py catches. -/
inductive OpenResult where
  | ok : String → OpenResult
  | fileNotFound : OpenResult
  | permissionDenied : OpenResult
  | osError : String → OpenResult
deriving DecidableEq, Repr

/-- An abstract file system: what opening each path yields. -/
abbrev FileSystem := String → OpenResult

/-- The distinct `ConfigError`s raised in main.py, one constructor per
`raise ConfigError(...)` site, carrying its f-string arguments. -/
inductive ConfigError where
  | decodeJson : String → String → ConfigError
  | decodeYaml : String → String → ConfigError
  | unsupportedFileType : ConfigError
  | configFileNotFound : String → ConfigError
  | configPermissionDenied : String → ConfigError
  | configOsError : String → String → ConfigError
  | matrixDecodeJson : String → String → ConfigError
  | matrixFileNotFound : String → ConfigError
  | matrixPermissionDenied : String → ConfigError
  | matrixOsError : String → String → ConfigError
deriving DecidableEq, Repr

/-- The exact message string each `raise ConfigError(...)` in main.py
attaches (lines 39, 45, 47, 51, 53, 55, 66, 70, 72, 74). -/
def ConfigError.message : ConfigError → String
  | .decodeJson config_file e =>
    "Error decoding JSON in " ++ config_file ++ ": " ++ e
  | .decodeYaml config_file e =>
    "Error decoding YAML in " ++ config_file ++ ": " ++ e
  | .unsupportedFileType =>
    "Unsupported file type.  Must be JSON or YAML."
  | .configFileNotFound config_file =>
    "Configuration file not found: " ++ config_file
  | .configPermissionDenied config_file =>
    "Permission denied when trying to read configuration file: " ++ config_file
  | .configOsError config_file e =>
    "OS error when opening file: " ++ config_file ++ ". " ++ e
  | .matrixDecodeJson matrix_file e =>
    "Error decoding JSON in compatibility matrix file: " ++ matrix_file ++ ". " ++ e
  | .matrixFileNotFound matrix_file =>
    "Compatibility matrix file not found: " ++ matrix_file
  | .matrixPermissionDenied matrix_file =>
    "Permission denied when trying to read compatibility matrix file: " ++ matrix_file
  | .matrixOsError matrix_file e =>
    "OS error when opening compatibility matrix file: " ++ matrix_file ++ ". " ++ e

/-- Index of the last occurrence of `c` in `cs`, if any. -/
def lastIdx (cs : List Char) (c : Char) : Option Nat :=
  (cs.foldl
    (fun acc x => (acc.1 + 1, if x == c then some acc.1 else acc.2))
    ((0 : Nat), (none : Option Nat))).2

/-- `os.path.splitext(path)[1]` on POSIX: the extension of the path's last
component, from its last dot — empty when the component has no dot or when
every character before that dot is a dot (so `.bashrc` has no extension). -/
def splitextExt (path : String) : String :=
  let cs := path.data
  let base :=
    match lastIdx cs '/' with
    | some i => cs.drop (i + 1)
    | none => cs
  match lastIdx base '.' with
  | none => ""
  | some d =>
    if (base.take d).all (fun ch => ch == '.') then ""
    else String.mk (base.drop d)

/-- Python `str.lower()` on a single character, for the ASCII range
(extensions are ASCII in the paths under consideration): map `A`-`Z` to
`a`-`z`, leave everything else unchanged. -/
def charLower (c : Char) : Char :=
  if c.toNat ≥ 65 && c.toNat ≤ 90 then Char.ofNat (c.toNat + 32) else c

/-- Python `str.lower()`: lowercase every character. -/
def strLower (s : String) : String :=
  String.mk (s.data.map charLower)

/-- `load_config` (main.py lines 29-55): open the file; on success,
dispatch on the lowercased extension — `.json` to `json_load`,
`.yaml`/`.yml` to `yaml_load`, anything else to the unsupported-file-type
error — wrapping parser failures in the decode errors; open failures map
to the corresponding `ConfigError`s.  The parsers `json.load` and
`yaml.safe_load` are abstract parameters. -/
def load_config {α : Type} (json_load yaml_load : String → Except String α)
    (fs : FileSystem) (config_file : String) : Except ConfigError α :=
  match fs config_file with
  | .ok content =>
    let file_extension := strLower (splitextExt config_file)
    if file_extension == ".json" then
      match json_load content with
      | .ok config_data => .ok config_data
      | .error e => .error (.decodeJson config_file e)
    else if file_extension == ".yaml" || file_extension == ".yml" then
      match yaml_load content with
      | .ok config_data => .ok config_data
      | .error e => .error (.decodeYaml config_file e)
    else
      .error .unsupportedFileType
  | .fileNotFound => .error (.configFileNotFound config_file)
  | .permissionDenied => .error (.configPermissionDenied config_file)
  | .osError e => .error (.configOsError config_file e)

/-- `load_compatibility_matrix` (main.py lines 59-74): open the file and
parse its content with `json_load` unconditionally — the path's extension
is never examined; parse failures wrap into the matrix decode error, open
failures into the corresponding `ConfigError`s. -/
def load_compatibility_matrix {α : Type} (json_load : String → Except String α)
    (fs : FileSystem) (matrix_file : String) : Except ConfigError α :=
  match fs matrix_file with
  | .ok content =>
    match json_load content with
    | .ok matrix_data => .ok matrix_data
    | .error e => .error (.matrixDecodeJson matrix_file e)
  | .fileNotFound => .error (.matrixFileNotFound matrix_file)
  | .permissionDenied => .error (.matrixPermissionDenied matrix_file)
  | .osError e => .error (.matrixOsError matrix_file e)

/-! ### Helper lemmas (shared) -/

theorem validate_config_length_aux (C : ConfigData) (M : Matrix) :
    (validate_config C M).length = (M.filter (isBad C)).length := by
  induction M with
  | nil => rfl
  | cons entry rest ih =>
    obtain ⟨p, allowed⟩ := entry
    simp only [validate_config, List.filter]
    cases h : dictGet C p with
    | none => simp [isBad, h, ih]
    | some v =>
      cases ha : allowed.any (fun expected => pyEq v expected) with
      | false => simp [isBad, h, ha, ih]
      | true => simp [isBad, h, ha, ih]

/-! ### Claim theorems -/

/-- C1: for every config `C` and matrix `M`, the number of issues returned
by `validate_config C M` equals the number of matrix entries whose property
is absent from `C` or present with a value not in the entry's allowed list
— never more, never less, at most one issue per matrix entry. -/
theorem c1_issue_count (C : ConfigData) (M : Matrix) :
    (validate_config C M).length = (M.filter (isBad C)).length :=
  validate_config_length_aux C M

/-- C2: value membership is decided by Python equality, under which the
number `8` and the string `"8"` are distinct; hence matrix
`{"level": [8]}` against config `{"level": "8"}` reports `level`
incompatible. -/
theorem c2_exact_type_equality :
    pyEq (Value.vInt 8) (Value.vStr "8") = false ∧
    pyEq (Value.vStr "8") (Value.vInt 8) = false ∧
    validate_config [("level", Value.vStr "8")] [("level", [Value.vInt 8])]
      = ["Property 'level' has incompatible value '8'. Allowed values: [8]"] := by
  refine ⟨rfl, rfl, ?_⟩
  rfl

/-- C4: every issue returned by `validate_config C M` is about a property
that is a key of `M`: it is the missing-property message or the
incompatible-value message for some matrix entry.  In particular a
property occurring in `C` but not in `M` produces no issue. -/
theorem c4_issues_only_about_matrix_keys (C : ConfigData) (M : Matrix)
    (issue : String) (hmem : issue ∈ validate_config C M) :
    ∃ p allowed, (p, allowed) ∈ M ∧
      (issue = missingMsg p ∨
        ∃ v, dictGet C p = some v ∧ issue = incompatibleMsg p v allowed) := by
  induction M with
  | nil => simp [validate_config] at hmem
  | cons entry rest ih =>
    obtain ⟨p, allowed⟩ := entry
    simp only [validate_config] at hmem
    cases h : dictGet C p with
    | none =>
      rw [h] at hmem
      rcases List.mem_cons.mp hmem with h1 | h2
      · exact ⟨p, allowed, List.mem_cons_self _ _, Or.inl h1⟩
      · obtain ⟨q, al, hq, hrest⟩ := ih h2
        exact ⟨q, al, List.mem_cons_of_mem _ hq, hrest⟩
    | some v =>
      rw [h] at hmem
      cases ha : allowed.any (fun expected => pyEq v expected) with
      | false =>
        simp only [ha, Bool.not_false, if_true] at hmem
        rcases List.mem_cons.mp hmem with h1 | h2
        · exact ⟨p, allowed, List.mem_cons_self _ _, Or.inr ⟨v, h, h1⟩⟩
        · obtain ⟨q, al, hq, hrest⟩ := ih h2
          exact ⟨q, al, List.mem_cons_of_mem _ hq, hrest⟩
      | true =>
        simp only [ha, Bool.not_true, Bool.false_eq_true, if_false] at hmem
        obtain ⟨q, al, hq, hrest⟩ := ih hmem
        exact ⟨q, al, List.mem_cons_of_mem _ hq, hrest⟩

/-- Witness for C4 at matrix `{"region": ["us","eu"]}`, config `{}`,
issue `"Property 'region' is missing from the configuration."`. -/
theorem c4_issues_only_about_matrix_keys_witness :
    ∃ p allowed, (p, allowed) ∈ [("region", [Value.vStr "us", Value.vStr "eu"])] ∧
      ("Property 'region' is missing from the configuration." = missingMsg p ∨
        ∃ v, dictGet ([] : ConfigData) p = some v ∧
          "Property 'region' is missing from the configuration."
            = incompatibleMsg p v allowed) :=
  c4_issues_only_about_matrix_keys [] [("region", [Value.vStr "us", Value.vStr "eu"])]
    "Property 'region' is missing from the configuration." (by decide)

/-- C5: against the matrix `{"mode": []}` (empty allowed list), every
config in which `mode` is present — with any value — gets exactly the
incompatible-value issue for `mode`: no value is ever acceptable. -/
theorem c5_empty_allowed_list (C : ConfigData) (v : Value)
    (h : dictGet C "mode" = some v) :
    validate_config C [("mode", [])] = [incompatibleMsg "mode" v []] := by
  simp [validate_config, h]

/-- Witness for C5 at config `{"mode": "x"}`. -/
theorem c5_empty_allowed_list_witness :
    validate_config [("mode", Value.vStr "x")] [("mode", [])]
      = [incompatibleMsg "mode" (Value.vStr "x") []] :=
  c5_empty_allowed_list [("mode", Value.vStr "x")] (Value.vStr "x") rfl

/-- C7: `validate_config` emits its issues in the matrix's own iteration
order — one pass of `filterMap` over the matrix entries — and each issue's
text is exactly `Property 'p' is missing from the configuration.` for an
absent property, and exactly `Property 'p' has incompatible value 'v'.
Allowed values: allowed` (with the value and the allowed list rendered as
Python renders them in an f-string) for a disallowed value.  The result is
a pure function of the two mappings, hence deterministic. -/
theorem c7_issue_order_and_text (C : ConfigData) (M : Matrix) :
    validate_config C M = M.filterMap (fun entry =>
      match dictGet C entry.1 with
      | none =>
        some ("Property '" ++ entry.1 ++ "' is missing from the configuration.")
      | some v =>
        if entry.2.any (fun expected => pyEq v expected) then none
        else
          some ("Property '" ++ entry.1 ++ "' has incompatible value '"
            ++ pyStr v ++ "'. Allowed values: " ++ pyStrList entry.2)) := by
  induction M with
  | nil => rfl
  | cons entry rest ih =>
    obtain ⟨p, allowed⟩ := entry
    simp only [validate_config, List.filterMap]
    cases h : dictGet C p with
    | none => simp [h, ih, missingMsg]
    | some v =>
      cases ha : allowed.any (fun expected => pyEq v expected) with
      | false => simp [h, ha, ih, incompatibleMsg]
      | true => simp [h, ha, ih]

/-- C8: `validate_config` is a total pure function of the two mappings (the
embedding returns a list for all inputs; no exception path exists in the
source for mapping-typed inputs), and the empty sequence — not a
distinguished success value — signals exactly the absence of problems. -/
theorem c8_total_and_empty_means_ok (C : ConfigData) (M : Matrix) :
    validate_config C M = [] ↔ ∀ entry ∈ M, isBad C entry = false := by
  rw [← List.length_eq_zero, validate_config_length_aux, List.length_eq_zero,
    List.filter_eq_nil_iff]
  simp

/-- C3: `load_compatibility_matrix` parses the opened file with the JSON
parser unconditionally — the statement holds for every path, whatever its
extension — and when the content is not valid JSON it fails with the
matrix decode (parse) `ConfigError`, whose message is the source's
f-string, and which is never the unsupported-file-type error. -/
theorem c3_matrix_always_json {α : Type}
    (json_load : String → Except String α) (fs : FileSystem)
    (matrix_file content e : String)
    (hopen : fs matrix_file = .ok content)
    (hparse : json_load content = .error e) :
    load_compatibility_matrix json_load fs matrix_file
        = .error (.matrixDecodeJson matrix_file e) ∧
      (ConfigError.matrixDecodeJson matrix_file e).message
        = "Error decoding JSON in compatibility matrix file: "
            ++ matrix_file ++ ". " ++ e ∧
      ConfigError.matrixDecodeJson matrix_file e ≠ .unsupportedFileType := by
  refine ⟨?_, rfl, by simp⟩
  simp [load_compatibility_matrix, hopen, hparse]

/-- Witness for C3 at a matrix path with a `.yaml` extension whose content
is not valid JSON. -/
theorem c3_matrix_always_json_witness :
    load_compatibility_matrix
        (fun _ => (Except.error "Expecting value" : Except String Unit))
        (fun _ => .ok "key: value") "matrix.yaml"
      = .error (.matrixDecodeJson "matrix.yaml" "Expecting value") ∧
    (ConfigError.matrixDecodeJson "matrix.yaml" "Expecting value").message
      = "Error decoding JSON in compatibility matrix file: "
          ++ "matrix.yaml" ++ ". " ++ "Expecting value" ∧
    ConfigError.matrixDecodeJson "matrix.yaml" "Expecting value"
      ≠ .unsupportedFileType :=
  c3_matrix_always_json (fun _ => (Except.error "Expecting value" : Except String Unit))
    (fun _ => .ok "key: value") "matrix.yaml" "key: value" "Expecting value" rfl rfl

/-- C6: on a successfully opened config file, `load_config` dispatches on
the lowercased extension: `.json` invokes the JSON parser, `.yaml`/`.yml`
invoke the YAML parser, and any other extension fails with the
unsupported-file-type `ConfigError`. -/
theorem c6_load_config_dispatch {α : Type}
    (json_load yaml_load : String → Except String α) (fs : FileSystem)
    (config_file content : String)
    (hopen : fs config_file = .ok content) :
    (strLower (splitextExt config_file) = ".json" →
      load_config json_load yaml_load fs config_file =
        match json_load content with
        | .ok config_data => .ok config_data
        | .error e => .error (.decodeJson config_file e)) ∧
    ((strLower (splitextExt config_file) = ".yaml" ∨
        strLower (splitextExt config_file) = ".yml") →
      load_config json_load yaml_load fs config_file =
        match yaml_load content with
        | .ok config_data => .ok config_data
        | .error e => .error (.decodeYaml config_file e)) ∧
    (strLower (splitextExt config_file) ≠ ".json" →
      strLower (splitextExt config_file) ≠ ".yaml" →
      strLower (splitextExt config_file) ≠ ".yml" →
      load_config json_load yaml_load fs config_file
        = .error .unsupportedFileType) := by
  refine ⟨?_, ?_, ?_⟩
  · intro h
    simp [load_config, hopen, h]
  · rintro (h | h) <;> simp [load_config, hopen, h]
  · intro h1 h2 h3
    simp [load_config, hopen, h1, h2, h3]

/-- Witness for C6 at `c.json` (JSON parser), `c.yaml` (YAML parser) and
`c.toml` (unsupported). -/
theorem c6_load_config_dispatch_witness :
    load_config (fun _ => (Except.ok () : Except String Unit))
        (fun _ => .error "yaml bad") (fun _ => .ok "body") "c.json" = .ok () ∧
    load_config (fun _ => (Except.ok () : Except String Unit))
        (fun _ => .error "yaml bad") (fun _ => .ok "body") "c.yaml"
      = .error (.decodeYaml "c.yaml" "yaml bad") ∧
    load_config (fun _ => (Except.ok () : Except String Unit))
        (fun _ => .error "yaml bad") (fun _ => .ok "body") "c.toml"
      = .error .unsupportedFileType := by
  refine ⟨?_, ?_, ?_⟩
  · exact (c6_load_config_dispatch (fun _ => (Except.ok () : Except String Unit))
      (fun _ => .error "yaml bad") (fun _ => .ok "body") "c.json" "body" rfl).1
      (by decide)
  · exact (c6_load_config_dispatch (fun _ => (Except.ok () : Except String Unit))
      (fun _ => .error "yaml bad") (fun _ => .ok "body") "c.yaml" "body" rfl).2.1
      (Or.inl (by decide))
  · exact (c6_load_config_dispatch (fun _ => (Except.ok () : Except String Unit))
      (fun _ => .error "yaml bad") (fun _ => .ok "body") "c.toml" "body" rfl).2.2
      (by decide) (by decide) (by decide)

/-- C9: `load_config` opens the file before examining the extension: on a
path that does not exist it fails with the configuration-file-not-found
`ConfigError` — which is not the unsupported-file-type error — whatever
the path's extension, since this holds for every path. -/
theorem c9_not_found_precedence {α : Type}
    (json_load yaml_load : String → Except String α) (fs : FileSystem)
    (config_file : String)
    (h : fs config_file = .fileNotFound) :
    load_config json_load yaml_load fs config_file
        = .error (.configFileNotFound config_file) ∧
      ConfigError.configFileNotFound config_file ≠ .unsupportedFileType := by
  refine ⟨?_, by simp⟩
  simp [load_config, h]

/-- Witness for C9 at a missing path with the unsupported extension
`.toml`. -/
theorem c9_not_found_precedence_witness :
    load_config (fun _ => (Except.ok () : Except String Unit))
        (fun _ => .ok ()) (fun _ => .fileNotFound) "config.toml"
      = .error (.configFileNotFound "config.toml") ∧
    ConfigError.configFileNotFound "config.toml" ≠ .unsupportedFileType :=
  c9_not_found_precedence (fun _ => (Except.ok () : Except String Unit))
    (fun _ => .ok ()) (fun _ => .fileNotFound) "config.toml" rfl

/-- C10: `load_config` lowercases the extension before dispatch, so
uppercase and mixed-case extensions select the corresponding parser and
never the unsupported-file-type error. -/
theorem c10_case_insensitive_extension {α : Type}
    (json_load yaml_load : String → Except String α) (fs : FileSystem)
    (config_file content : String)
    (hopen : fs config_file = .ok content) :
    (splitextExt config_file = ".JSON" →
      strLower (splitextExt config_file) = ".json" ∧
      load_config json_load yaml_load fs config_file =
        match json_load content with
        | .ok config_data => .ok config_data
        | .error e => .error (.decodeJson config_file e)) ∧
    (splitextExt config_file = ".Yaml" →
      strLower (splitextExt config_file) = ".yaml" ∧
      load_config json_load yaml_load fs config_file =
        match yaml_load content with
        | .ok config_data => .ok config_data
        | .error e => .error (.decodeYaml config_file e)) ∧
    (splitextExt config_file = ".YML" →
      strLower (splitextExt config_file) = ".yml" ∧
      load_config json_load yaml_load fs config_file =
        match yaml_load content with
        | .ok config_data => .ok config_data
        | .error e => .error (.decodeYaml config_file e)) ∧
    ((splitextExt config_file = ".JSON" ∨ splitextExt config_file = ".Yaml" ∨
        splitextExt config_file = ".YML") →
      load_config json_load yaml_load fs config_file
        ≠ .error .unsupportedFileType) := by
  have hj : splitextExt config_file = ".JSON" →
      strLower (splitextExt config_file) = ".json" := by
    intro h; rw [h]; decide
  have hy : splitextExt config_file = ".Yaml" →
      strLower (splitextExt config_file) = ".yaml" := by
    intro h; rw [h]; decide
  have hm : splitextExt config_file = ".YML" →
      strLower (splitextExt config_file) = ".yml" := by
    intro h; rw [h]; decide
  refine ⟨fun h => ⟨hj h, ?_⟩, fun h => ⟨hy h, ?_⟩, fun h => ⟨hm h, ?_⟩, ?_⟩
  · simp [load_config, hopen, hj h]
  · simp [load_config, hopen, hy h]
  · simp [load_config, hopen, hm h]
  · rintro (h | h | h)
    · cases hp : json_load content with
      | ok d => simp [load_config, hopen, hj h, hp]
      | error e => simp [load_config, hopen, hj h, hp]
    · cases hp : yaml_load content with
      | ok d => simp [load_config, hopen, hy h, hp]
      | error e => simp [load_config, hopen, hy h, hp]
    · cases hp : yaml_load content with
      | ok d => simp [load_config, hopen, hm h, hp]
      | error e => simp [load_config, hopen, hm h, hp]

/-- Witness for C10 at `c.JSON`, `c.Yaml` and `c.YML`. -/
theorem c10_case_insensitive_extension_witness :
    (strLower (splitextExt "c.JSON") = ".json" ∧
      load_config (fun _ => (Except.ok () : Except String Unit))
        (fun _ => .error "yaml bad") (fun _ => .ok "body") "c.JSON" = .ok ()) ∧
    (strLower (splitextExt "c.Yaml") = ".yaml" ∧
      load_config (fun _ => (Except.ok () : Except String Unit))
        (fun _ => .error "yaml bad") (fun _ => .ok "body") "c.Yaml"
        = .error (.decodeYaml "c.Yaml" "yaml bad")) ∧
    load_config (fun _ => (Except.ok () : Except String Unit))
      (fun _ => .error "yaml bad") (fun _ => .ok "body") "c.YML"
      ≠ .error .unsupportedFileType := by
  refine ⟨?_, ?_, ?_⟩
  · exact (c10_case_insensitive_extension (fun _ => (Except.ok () : Except String Unit))
      (fun _ => .error "yaml bad") (fun _ => .ok "body") "c.JSON" "body" rfl).1
      (by decide)
  · exact (c10_case_insensitive_extension (fun _ => (Except.ok () : Except String Unit))
      (fun _ => .error "yaml bad") (fun _ => .ok "body") "c.Yaml" "body" rfl).2.1
      (by decide)
  · exact (c10_case_insensitive_extension (fun _ => (Except.ok () : Except String Unit))
      (fun _ => .error "yaml bad") (fun _ => .ok "body") "c.YML" "body" rfl).2.2.2
      (Or.inr (Or.inr (by decide)))

end Misconfig
